import Mathlib

set_option linter.unusedVariables false

/-!
Formal model of the SOCKS5 proxy engine and SSH tunnel supervisor of
`socks.py` (classes `SOCKS5Proxy`, `SOCKS5HealthChecker`, `TunnelInfo`,
`CompleteSSHTunnelSOCKS5Manager`).

Modelling conventions:
* Python integers are unbounded, so counters are `Int` (byte values, lengths
  and ports read from the wire are `Nat`).
* Byte strings received from sockets are `List Nat`; each `recv` result is a
  separate oracle parameter.
* Socket, clock and child-process effects are oracle parameters (`Bool`
  outcomes, a `dial` function for outbound connects, a chunk list for the
  relay loop).
* Python `dict` objects keyed by connection id are association lists
  `List (Nat × ConnectionStats)`; the engine only ever inserts fresh keys
  (taken from the monotone `connection_counter`), so single-entry update and
  delete coincide with the dict semantics.
-/

/-- Model of the `SOCKS5Status` enum (socks.py lines 92-98). -/
inductive SOCKS5Status where
  | STOPPED | STARTING | RUNNING | FAILED | UNHEALTHY
deriving DecidableEq

/-- Model of the `TunnelStatus` enum (socks.py lines 710-717). -/
inductive TunnelStatus where
  | STOPPED | STARTING | RUNNING | FAILED | RECOVERING | UNHEALTHY
deriving DecidableEq

/-- Model of the `ConnectionStats` dataclass (socks.py lines 130-149).
`start_time` and `end_time` are wall-clock fields unused by any claim and
are omitted. -/
structure ConnectionStats where
  client_addr : String
  target_addr : String
  target_port : Nat
  bytes_sent : Nat
  bytes_received : Nat
  active : Bool
deriving DecidableEq

/-- The `total_bytes` property of `ConnectionStats` (socks.py lines 147-149). -/
def ConnectionStats.total_bytes (c : ConnectionStats) : Nat :=
  c.bytes_sent + c.bytes_received

/-- Model of the `ProxyStats` dataclass (socks.py lines 151-184).
`start_time` (wall clock) and `connections_history` (an append-only alias
list used only for display) are unused by any claim and are omitted. -/
structure ProxyStats where
  total_connections : Int
  active_connections : Int
  failed_connections : Int
  total_bytes_transferred : Int
deriving DecidableEq

/-- Model of `ProxyStats.add_connection` (socks.py lines 161-164): the record
is appended to the history and both `total_connections` and
`active_connections` are incremented. -/
def ProxyStats.add_connection (s : ProxyStats) (c : ConnectionStats) : ProxyStats :=
  { s with total_connections := s.total_connections + 1,
           active_connections := s.active_connections + 1 }

/-- Model of `ProxyStats.close_connection` (socks.py lines 166-170): the
record is flagged inactive and stamped (the record itself is deleted from the
engine map right afterwards, see `closeConnection`), `active_connections` is
decremented and the record's bytes are added to `total_bytes_transferred`. -/
def ProxyStats.close_connection (s : ProxyStats) (c : ConnectionStats) : ProxyStats :=
  { s with active_connections := s.active_connections - 1,
           total_bytes_transferred := s.total_bytes_transferred + (c.total_bytes : Int) }

/-- Model of `ProxyStats.fail_connection` (socks.py lines 172-173). -/
def ProxyStats.fail_connection (s : ProxyStats) : ProxyStats :=
  { s with failed_connections := s.failed_connections + 1 }

/-- Initial `ProxyStats` (dataclass defaults, socks.py lines 154-159). -/
def ProxyStats.init : ProxyStats :=
  { total_connections := 0, active_connections := 0,
    failed_connections := 0, total_bytes_transferred := 0 }

/-- The mutable state of one `SOCKS5Proxy` instance (socks.py lines 195-219):
`self.status`, `self.running`, `self.connections`, `self.stats` and
`self.connection_counter`.  The immutable configuration (`auth_required`,
credentials, buffer size) is passed to the operations explicitly. -/
structure SOCKS5ProxyState where
  status : SOCKS5Status
  running : Bool
  connections : List (Nat × ConnectionStats)
  stats : ProxyStats
  connection_counter : Nat
deriving DecidableEq

/-- The state of a freshly constructed `SOCKS5Proxy` (socks.py lines 206-219). -/
def SOCKS5ProxyState.init : SOCKS5ProxyState :=
  { status := SOCKS5Status.STOPPED, running := false, connections := [],
    stats := ProxyStats.init, connection_counter := 0 }

/-- Lookup in the `self.connections` dict: models both `conn_id in
self.connections` and `self.connections[conn_id]`. -/
def findConn : List (Nat × ConnectionStats) → Nat → Option ConnectionStats
  | [], _ => none
  | (k, c) :: rest, id => if k = id then some c else findConn rest id

/-- Deletion from the `self.connections` dict (`del self.connections[conn_id]`). -/
def removeConn : List (Nat × ConnectionStats) → Nat → List (Nat × ConnectionStats)
  | [], _ => []
  | (k, c) :: rest, id => if k = id then removeConn rest id else (k, c) :: removeConn rest id

/-- In-place mutation of the record stored under a key in `self.connections`
(e.g. `self.connections[conn_id].bytes_sent += len(data)`). -/
def updateConn : List (Nat × ConnectionStats) → Nat → (ConnectionStats → ConnectionStats) →
    List (Nat × ConnectionStats)
  | [], _, _ => []
  | (k, c) :: rest, id, f =>
      if k = id then (k, f c) :: updateConn rest id f else (k, c) :: updateConn rest id f

/-- Number of records in the connections map whose `active` flag is set. -/
def countActive (l : List (Nat × ConnectionStats)) : Nat :=
  (l.filter fun p => p.2.active).length

/-- Registration of a new connection (socks.py lines 326-333): a fresh
`ConnectionStats` record (whose `target_addr`/`target_port` are the dummy
initial values `""`/`0`, and whose dataclass defaults make it `active`) is
stored under `conn_id` and `stats.add_connection` is called. -/
def registerConnection (st : SOCKS5ProxyState) (conn_id : Nat) (client_addr : String) :
    SOCKS5ProxyState :=
  let c : ConnectionStats :=
    { client_addr := client_addr, target_addr := "", target_port := 0,
      bytes_sent := 0, bytes_received := 0, active := true }
  { st with connections := (conn_id, c) :: st.connections,
            stats := st.stats.add_connection c }

/-- Model of `SOCKS5Proxy._close_connection` (socks.py lines 560-565): if the
id is present, `stats.close_connection` runs on its record and the record is
deleted; otherwise nothing happens. -/
def closeConnection (st : SOCKS5ProxyState) (conn_id : Nat) : SOCKS5ProxyState :=
  match findConn st.connections conn_id with
  | none => st
  | some c =>
      { st with stats := st.stats.close_connection c,
                connections := removeConn st.connections conn_id }

/-- One successful forward inside `SOCKS5Proxy._relay_data` (socks.py lines
531-545): a chunk of `n` bytes moves in one direction; if the connection id
is still registered the matching byte counter of its record is increased.
`fromClient = true` is the client-to-target direction (`bytes_sent`). -/
def relayStep (st : SOCKS5ProxyState) (conn_id : Nat) (ch : Bool × Nat) : SOCKS5ProxyState :=
  match findConn st.connections conn_id with
  | none => st
  | some _ =>
      { st with connections :=
          updateConn st.connections conn_id fun c =>
            if ch.1 then { c with bytes_sent := c.bytes_sent + ch.2 }
            else { c with bytes_received := c.bytes_received + ch.2 } }

/-- Model of `SOCKS5Proxy._relay_data` (socks.py lines 512-558): the sequence
of forwarded chunks is an oracle; each chunk is applied by `relayStep`.
Termination conditions (zero read, error, shutdown, deadline) only decide
where the chunk list ends. -/
def relay_data (st : SOCKS5ProxyState) (conn_id : Nat) : List (Bool × Nat) → SOCKS5ProxyState
  | [] => st
  | ch :: rest => relay_data (relayStep st conn_id ch) conn_id rest

/-- Model of `SOCKS5Proxy._handle_username_password_auth` (socks.py lines
390-425) on one `recv` result.  The RFC 1929 message is parsed with the same
length guards; credentials are compared as byte strings (UTF-8 decoding is
injective, so equality of the decoded strings coincides with equality of the
bytes with the encoded configured credentials; a decode error in Python is
caught and also yields `False`, as does the byte comparison). -/
def handle_username_password_auth (username password : List Nat) (data : List Nat) : Bool :=
  if data.length < 2 then false
  else if data.getD 0 0 ≠ 1 then false
  else
    let username_len := data.getD 1 0
    if data.length < 2 + username_len + 1 then false
    else
      let uname := (data.drop 2).take username_len
      let password_len := data.getD (2 + username_len) 0
      if data.length < 2 + username_len + 1 + password_len then false
      else
        let passwd := (data.drop (2 + username_len + 1)).take password_len
        uname == username && passwd == password

/-- Model of `SOCKS5Proxy._handle_handshake` (socks.py lines 347-388).
Every raised `SOCKS5Exception` (short greeting, wrong version, short method
list for the declared `nmethods`, no acceptable method) is caught by the
method's own `except Exception` handler and returns `False`; the method
therefore never lets an exception escape.  The method-selection reply bytes
`[5, chosen]` are sent but recorded nowhere the claims need. -/
def handle_handshake (auth_required : Bool) (username password : List Nat)
    (data authData : List Nat) : Bool :=
  if data.length < 3 then false
  else if data.getD 0 0 ≠ 5 then false
  else
    let nmethods := data.getD 1 0
    if data.length < 2 + nmethods then false
    else
      let methods := (data.drop 2).take nmethods
      let chosen : Nat :=
        if auth_required then (if methods.contains 2 then 2 else 255)
        else (if methods.contains 0 then 0 else 255)
      if chosen = 255 then false
      else if chosen = 2 then handle_username_password_auth username password authData
      else true

/-- Outcome of `target_socket.connect((addr, port))` (socks.py line 478),
split by the exception handlers of lines 479-484: success, `socket.gaierror`,
`socket.timeout`, `ConnectionRefusedError`, or any other exception (which
propagates to the generic handler at line 503). -/
inductive DialOutcome where
  | ok | gaierror | timeout | refused | other
deriving DecidableEq

/-- Observable outcome of `SOCKS5Proxy._handle_request`: the single reply
sent to the client, whether a target socket is returned, and whether an
outbound connect was attempted. -/
structure RequestOutcome where
  sent : List Nat
  target : Bool
  dialAttempted : Bool
deriving DecidableEq

/-- The error reply of socks.py lines 497-499 and 505-507: version 5, the
reply code, reserved 0, `ATYP=IPV4`, then six zero bytes (zero bound address
and zero port). -/
def errReply (code : Nat) : List Nat := [5, code, 0, 1, 0, 0, 0, 0, 0, 0]

/-- The success reply of socks.py lines 487-489: version 5, `REP=SUCCESS`,
reserved 0, `ATYP=IPV4`, bound address `0.0.0.0`, bound port 0. -/
def successReply : List Nat := [5, 0, 0, 1, 0, 0, 0, 0, 0, 0]

/-- The parsing part of `SOCKS5Proxy._handle_request` (socks.py lines
430-466).  `Except.error c` models a `SOCKS5Exception` carrying reply code
`c` (the default code is `GENERAL_FAILURE = 1`); `Except.ok (atyp, addr,
port)` gives the address type, the raw address bytes (the `inet_ntoa` /
UTF-8 / `inet_ntop` rendering keeps the bytes' identity, so the dial oracle
receives them raw) and the big-endian port. -/
def parse_request (data : List Nat) : Except Nat (Nat × List Nat × Nat) :=
  if data.length < 4 then Except.error 1
  else if data.getD 0 0 ≠ 5 then Except.error 1
  else if data.getD 1 0 ≠ 1 then Except.error 7
  else
    let atyp := data.getD 3 0
    if atyp = 1 then
      if data.length < 10 then Except.error 1
      else Except.ok (1, (data.drop 4).take 4, 256 * data.getD 8 0 + data.getD 9 0)
    else if atyp = 3 then
      if data.length < 5 then Except.error 1
      else
        let domain_len := data.getD 4 0
        if data.length < 5 + domain_len + 2 then Except.error 1
        else Except.ok (3, (data.drop 5).take domain_len,
              256 * data.getD (5 + domain_len) 0 + data.getD (6 + domain_len) 0)
    else if atyp = 4 then
      if data.length < 22 then Except.error 1
      else Except.ok (4, (data.drop 4).take 16, 256 * data.getD 20 0 + data.getD 21 0)
    else Except.error 8

/-- Model of `SOCKS5Proxy._handle_request` (socks.py lines 427-510): parse
the request, then dial the target with a 10 s deadline.  On parse error the
mapped error reply is sent and no connect is attempted; on a dial failure
the code mapped by the exception handlers (gaierror and timeout to
`HOST_UNREACHABLE = 4`, refused to `CONNECTION_REFUSED = 5`, anything else
to `GENERAL_FAILURE = 1`) is sent; on success the success reply is sent and
the target socket is returned. -/
def handle_request (data : List Nat) (dial : Nat → List Nat → Nat → DialOutcome) :
    RequestOutcome :=
  match parse_request data with
  | Except.error code => { sent := errReply code, target := false, dialAttempted := false }
  | Except.ok (atyp, addr, port) =>
      match dial atyp addr port with
      | DialOutcome.ok => { sent := successReply, target := true, dialAttempted := true }
      | DialOutcome.gaierror => { sent := errReply 4, target := false, dialAttempted := true }
      | DialOutcome.timeout => { sent := errReply 4, target := false, dialAttempted := true }
      | DialOutcome.refused => { sent := errReply 5, target := false, dialAttempted := true }
      | DialOutcome.other => { sent := errReply 1, target := false, dialAttempted := true }

/-- Model of `SOCKS5Proxy._handle_connection` (socks.py lines 311-345) for
one accepted client.  `_handle_handshake` and `_handle_request` both catch
every exception internally and signal failure through their return value, so
the `except` branch at line 338 (the only place `stats.fail_connection` could
run for this path) is unreachable from the modelled behaviours.  The
`finally` block always runs `_close_connection(conn_id)` and closes the
client socket — the second component of the result. -/
def handle_connection (st : SOCKS5ProxyState) (conn_id : Nat)
    (auth_required : Bool) (username password : List Nat)
    (greeting authData reqData : List Nat)
    (dial : Nat → List Nat → Nat → DialOutcome)
    (client_addr : String) (chunks : List (Bool × Nat)) : SOCKS5ProxyState × Bool :=
  let st1 :=
    if handle_handshake auth_required username password greeting authData then
      if (handle_request reqData dial).target then
        relay_data (registerConnection st conn_id client_addr) conn_id chunks
      else st
    else st
  (closeConnection st1 conn_id, true)

/-- Atomic engine events for the statistics invariant, condensed from the
code paths that touch `self.connections` / `self.stats`:
* `acceptAssign` — the accept loop assigns the next id to a client whose
  handler never registers a record (socks.py lines 293-294);
* `openConn` — id assignment (lines 293-294) followed by the handler's
  registration of the record (lines 326-333);
* `relayChunk` — one forwarded chunk inside `_relay_data` (lines 531-545);
* `closeConn` — `_close_connection` (lines 560-565), reached from the
  handler's `finally` block and from `stop()`;
* `failConn` — `stats.fail_connection()` (lines 289, 339). -/
inductive EngineOp where
  | acceptAssign
  | openConn (client_addr : String)
  | relayChunk (id : Nat) (fromClient : Bool) (n : Nat)
  | closeConn (id : Nat)
  | failConn

/-- Effect of one engine event on the engine state. -/
def applyOp (st : SOCKS5ProxyState) : EngineOp → SOCKS5ProxyState
  | EngineOp.acceptAssign => { st with connection_counter := st.connection_counter + 1 }
  | EngineOp.openConn ca =>
      { registerConnection st st.connection_counter ca with
          connection_counter := st.connection_counter + 1 }
  | EngineOp.relayChunk id b n => relayStep st id (b, n)
  | EngineOp.closeConn id => closeConnection st id
  | EngineOp.failConn => { st with stats := st.stats.fail_connection }

/-- Model of `SOCKS5HealthChecker.run_health_check` result fields (socks.py
lines 670-704); the wall-clock `response_time_ms` and echo fields are
omitted. -/
structure HealthCheckResults where
  basic_connectivity : Bool
  socks5_handshake : Bool
  full_connection : Bool
  overall_healthy : Bool
deriving DecidableEq

/-- Model of `SOCKS5HealthChecker.run_health_check` (socks.py lines 670-704).
The three staged socket checks (`check_basic_connectivity`,
`check_socks5_handshake`, `check_full_connection`) are oracles giving the
result each stage would produce if run; all result fields start `False` and
a later stage is only run (and its field only set) when the earlier stage
passed.  `overall_healthy` is the conjunction of the three fields. -/
def run_health_check (basicOk handshakeOk fullOk : Bool) : HealthCheckResults :=
  let basic := basicOk
  let hs := if basic then handshakeOk else false
  let full := if hs then fullOk else false
  { basic_connectivity := basic
    socks5_handshake := hs
    full_connection := full
    overall_healthy := basic && hs && full }

/-- Model of the `TunnelInfo` dataclass fields the claims touch (socks.py
lines 719-737).  `has_socks5_proxy` models `socks5_proxy is not None`;
process handles and timestamps are omitted. -/
structure TunnelInfo where
  port : Int
  status : TunnelStatus
  failure_count : Int
  last_error : Option String
  socks5_port : Option Int
  socks5_status : SOCKS5Status
  has_socks5_proxy : Bool
deriving DecidableEq

/-- The manager's `base_socks5_port` field (socks.py line 790). -/
def base_socks5_port : Int := 8880

/-- The offset computation of socks.py line 935:
`socks5_port = self.base_socks5_port + (tunnel_port - 1080)`. -/
def socks5_port_for (tunnel_port : Int) : Int := base_socks5_port + (tunnel_port - 1080)

/-- Result of `create_socks5_proxy`: the Python return value, the updated
tunnel record, and whether the SOCKS5 proxy server created by the call is
still running when the call returns. -/
structure CreateProxyOutcome where
  ok : Bool
  tunnel : TunnelInfo
  proxyRunning : Bool
deriving DecidableEq

/-- Model of `CompleteSSHTunnelSOCKS5Manager.create_socks5_proxy` (socks.py
lines 932-976).  `startOk` is the oracle result of `SOCKS5Proxy.start()`
(line 952) and `healthOk` the oracle result of `test_socks5_health` run
after the `time.sleep(1)` (lines 961-962).  When the health check fails the
method logs a warning and returns `False` without calling `stop()` on the
proxy it just started, so `proxyRunning` stays `true` in that branch. -/
def create_socks5_proxy (t : TunnelInfo) (startOk healthOk : Bool) : CreateProxyOutcome :=
  if startOk then
    let t1 := { t with has_socks5_proxy := true,
                       socks5_port := some (socks5_port_for t.port),
                       socks5_status := SOCKS5Status.RUNNING }
    if healthOk then { ok := true, tunnel := t1, proxyRunning := true }
    else { ok := false, tunnel := t1, proxyRunning := true }
  else
    { ok := false, tunnel := { t with socks5_status := SOCKS5Status.FAILED },
      proxyRunning := false }

/-- Result of `create_tunnel`: Python return value, updated tunnel record,
and whether the SOCKS5 engine started for this tunnel is still running. -/
structure CreateTunnelOutcome where
  ok : Bool
  tunnel : TunnelInfo
  proxyRunning : Bool
deriving DecidableEq

/-- The health-probe retry loop of `create_tunnel` (socks.py lines
1060-1079): up to three rounds of `(test_tunnel_health, test_socks5_health)`
probes (the oracle list), spaced 2 s apart; the first all-healthy round
transitions to `RUNNING` and clears `failure_count`; exhaustion transitions
to `UNHEALTHY` with `failure_count` incremented. -/
def probe_rounds (t : TunnelInfo) : List (Bool × Bool) → CreateTunnelOutcome
  | [] =>
      { ok := false,
        tunnel := { t with last_error := some "Tunnel created but health checks failed",
                           status := TunnelStatus.UNHEALTHY,
                           failure_count := t.failure_count + 1 },
        proxyRunning := true }
  | (ssh_h, socks_h) :: rest =>
      if ssh_h && socks_h then
        { ok := true,
          tunnel := { t with status := TunnelStatus.RUNNING, failure_count := 0,
                             last_error := none },
          proxyRunning := true }
      else probe_rounds t rest

/-- Model of `CompleteSSHTunnelSOCKS5Manager.create_tunnel` (socks.py lines
991-1085): set `STARTING`, run `create_socks5_proxy`; on its failure set
`FAILED` and bump `failure_count` (lines 998-1001) — note the started proxy
is not stopped; otherwise spawn the SSH child, write the PID file, sleep 3 s
(`sshExitedWithin3s` is the oracle for `process.poll() is not None`, with
`stderrMsg` its captured stderr), then run the probe rounds. -/
def create_tunnel (t0 : TunnelInfo) (startOk healthOk sshExitedWithin3s : Bool)
    (stderrMsg : String) (rounds : List (Bool × Bool)) : CreateTunnelOutcome :=
  let r := create_socks5_proxy { t0 with status := TunnelStatus.STARTING } startOk healthOk
  if !r.ok then
    { ok := false,
      tunnel := { r.tunnel with status := TunnelStatus.FAILED,
                                failure_count := r.tunnel.failure_count + 1 },
      proxyRunning := r.proxyRunning }
  else if sshExitedWithin3s then
    { ok := false,
      tunnel := { r.tunnel with last_error := some stderrMsg,
                                status := TunnelStatus.FAILED,
                                failure_count := r.tunnel.failure_count + 1 },
      proxyRunning := r.proxyRunning }
  else probe_rounds r.tunnel rounds

/-- The SSH option vector built by `create_tunnel` (socks.py lines
1009-1022): seven `-o` options, the `IPQoS=throughput` option, `-N`, the
reverse-forward specification, the SSH port and the destination. -/
def ssh_opts (port socks5_port ssh_port : Int) (user ip : String) : List String :=
  ["-o", "ConnectTimeout=30",
   "-o", "ServerAliveInterval=5",
   "-o", "ServerAliveCountMax=3",
   "-o", "TCPKeepAlive=yes",
   "-o", "ExitOnForwardFailure=yes",
   "-o", "StrictHostKeyChecking=no",
   "-o", "Compression=yes",
   "-o", "IPQoS=throughput",
   "-N",
   "-R", "127.0.0.1:" ++ toString port ++ ":127.0.0.1:" ++ toString socks5_port,
   "-p", toString ssh_port,
   user ++ "@" ++ ip]

/-- The full child command of `create_tunnel` (socks.py lines 1024-1027):
the `autossh -M 0` wrapper, preceded by `sshpass -p <password>` when
password authentication is in use. -/
def create_tunnel_cmd (use_key_auth : Bool) (password : String)
    (port socks5_port ssh_port : Int) (user ip : String) : List String :=
  if use_key_auth then
    ["autossh", "-M", "0"] ++ ssh_opts port socks5_port ssh_port user ip
  else
    ["sshpass", "-p", password, "autossh", "-M", "0"] ++
      ssh_opts port socks5_port ssh_port user ip

/-- The values of the `-o` options appearing in an argument vector. -/
def sshOptionValues : List String → List String
  | "-o" :: v :: rest => v :: sshOptionValues rest
  | _ :: rest => sshOptionValues rest
  | [] => []

/-- Written from the spec's words, for comparison with `ssh_opts`: the
`-o` option values claimed in section 4.C, step (iv), in the order the
source emits options. -/
def specClaimedOptionValues : List String :=
  ["ConnectTimeout=30", "ServerAliveInterval=5", "ServerAliveCountMax=3",
   "TCPKeepAlive=yes", "ExitOnForwardFailure=yes", "StrictHostKeyChecking=no",
   "Compression=yes"]

/-- One tunnel's status update in `_monitor_loop` (socks.py lines 1289-1318):
the two probe results are combined; in the all-healthy case the failure
count decays (clamped at 0); in every other case the corresponding status
pair is set and then `failure_count += 1` runs (line 1317) regardless of
which probe failed. -/
def monitor_tick_update (t : TunnelInfo) (ssh_healthy socks5_healthy : Bool) : TunnelInfo :=
  if ssh_healthy && socks5_healthy then
    { t with status := TunnelStatus.RUNNING,
             socks5_status := SOCKS5Status.RUNNING,
             failure_count := max 0 (t.failure_count - 1) }
  else
    let t1 :=
      if !ssh_healthy && !socks5_healthy then
        { t with status := TunnelStatus.FAILED, socks5_status := SOCKS5Status.FAILED }
      else if !ssh_healthy then
        { t with status := TunnelStatus.UNHEALTHY,
                 socks5_status := if socks5_healthy then SOCKS5Status.RUNNING
                                  else SOCKS5Status.UNHEALTHY }
      else
        { t with status := TunnelStatus.RUNNING, socks5_status := SOCKS5Status.UNHEALTHY }
    { t1 with failure_count := t1.failure_count + 1 }

/-- The `consecutive_failures` update of `_monitor_loop` (socks.py lines
1326-1331): reset to 0 when every tunnel was healthy this tick, incremented
otherwise. -/
def next_consecutive_failures (consecutive_failures : Nat) (allHealthy : Bool) : Nat :=
  if allHealthy then 0 else consecutive_failures + 1

/-- The sleep-interval computation of `_monitor_loop` (socks.py lines
1334-1337): exponential backoff capped at 300 s while there are consecutive
failed ticks, the base interval otherwise. -/
def monitor_sleep_time (health_check_interval consecutive_failures : Nat) : Nat :=
  if consecutive_failures > 0 then
    min (health_check_interval * 2 ^ (min consecutive_failures 5)) 300
  else health_check_interval

/-- The manager's `health_check_interval` default (socks.py line 810). -/
def default_health_check_interval : Nat := 30

/-- The statistics invariant of the engine state: `active_connections` equals
the number of active records in the connections map, every stored record is
active, every stored key is below the counter, and keys are distinct. -/
def EngineInv (st : SOCKS5ProxyState) : Prop :=
  st.stats.active_connections = (countActive st.connections : Int)
  ∧ (∀ p ∈ st.connections, p.2.active = true)
  ∧ (∀ p ∈ st.connections, p.1 < st.connection_counter)
  ∧ (st.connections.map Prod.fst).Nodup

/-- A freshly started engine (after `SOCKS5Proxy.start`, socks.py lines
231-249): status `RUNNING`, listener live, no connections yet. -/
def runningEngine : SOCKS5ProxyState :=
  { status := SOCKS5Status.RUNNING, running := true, connections := [],
    stats := ProxyStats.init, connection_counter := 0 }

/-- A supervisor record for port 1080 currently in the `RUNNING` state. -/
def runningTunnel : TunnelInfo :=
  { port := 1080, status := TunnelStatus.RUNNING, failure_count := 0, last_error := none,
    socks5_port := some 8880, socks5_status := SOCKS5Status.RUNNING,
    has_socks5_proxy := true }

/-- A supervisor record for port 1080 before anything was started. -/
def stoppedTunnel : TunnelInfo :=
  { port := 1080, status := TunnelStatus.STOPPED, failure_count := 0, last_error := none,
    socks5_port := none, socks5_status := SOCKS5Status.STOPPED,
    has_socks5_proxy := false }

/-! Helper lemmas about the connections map and the relay loop. -/

theorem findConn_none_of_not_mem {l : List (Nat × ConnectionStats)} {id : Nat}
    (h : id ∉ l.map Prod.fst) : findConn l id = none := by
  induction l with
  | nil => rfl
  | cons p rest ih =>
      obtain ⟨k, c⟩ := p
      simp only [List.map_cons, List.mem_cons] at h
      push_neg at h
      have hk : ¬ (k = id) := fun hkk => h.1 (Eq.symm hkk)
      simp only [findConn, if_neg hk]
      exact ih h.2

theorem removeConn_of_findConn_none {l : List (Nat × ConnectionStats)} {id : Nat}
    (h : findConn l id = none) : removeConn l id = l := by
  induction l with
  | nil => rfl
  | cons p rest ih =>
      obtain ⟨k, c⟩ := p
      by_cases hk : k = id
      · simp only [findConn, if_pos hk] at h
        cases h
      · simp only [findConn, if_neg hk] at h
        simp only [removeConn, if_neg hk, ih h]

theorem removeConn_updateConn (l : List (Nat × ConnectionStats)) (id : Nat)
    (f : ConnectionStats → ConnectionStats) :
    removeConn (updateConn l id f) id = removeConn l id := by
  induction l with
  | nil => rfl
  | cons p rest ih =>
      obtain ⟨k, c⟩ := p
      by_cases hk : k = id
      · simp only [updateConn, if_pos hk, removeConn, ih]
      · simp only [updateConn, if_neg hk, removeConn, ih]

theorem findConn_updateConn (l : List (Nat × ConnectionStats)) (id : Nat)
    (f : ConnectionStats → ConnectionStats) :
    findConn (updateConn l id f) id = (findConn l id).map f := by
  induction l with
  | nil => rfl
  | cons p rest ih =>
      obtain ⟨k, c⟩ := p
      by_cases hk : k = id
      · simp [updateConn, findConn, hk]
      · simp only [updateConn, if_neg hk, findConn, if_neg hk, ih]

theorem keys_updateConn (l : List (Nat × ConnectionStats)) (id : Nat)
    (f : ConnectionStats → ConnectionStats) :
    (updateConn l id f).map Prod.fst = l.map Prod.fst := by
  induction l with
  | nil => rfl
  | cons p rest ih =>
      obtain ⟨k, c⟩ := p
      by_cases hk : k = id
      · simp only [updateConn, if_pos hk, List.map_cons, ih]
      · simp only [updateConn, if_neg hk, List.map_cons, ih]

theorem countActive_updateConn (l : List (Nat × ConnectionStats)) (id : Nat)
    (f : ConnectionStats → ConnectionStats) (hf : ∀ c, (f c).active = c.active) :
    countActive (updateConn l id f) = countActive l := by
  induction l with
  | nil => rfl
  | cons p rest ih =>
      obtain ⟨k, c⟩ := p
      by_cases hk : k = id
      · simp only [updateConn, if_pos hk, countActive, List.filter_cons, hf c] at *
        by_cases hc : c.active <;> simp [hc, ih]
      · simp only [updateConn, if_neg hk, countActive, List.filter_cons] at *
        by_cases hc : c.active <;> simp [hc, ih]

theorem active_mem_updateConn {l : List (Nat × ConnectionStats)} {id : Nat}
    {f : ConnectionStats → ConnectionStats}
    (hl : ∀ p ∈ l, p.2.active = true) (hf : ∀ c, (f c).active = c.active) :
    ∀ p ∈ updateConn l id f, p.2.active = true := by
  induction l with
  | nil => intro p hp; cases hp
  | cons q rest ih =>
      obtain ⟨k, c⟩ := q
      intro p hp
      by_cases hk : k = id
      · simp only [updateConn, if_pos hk, List.mem_cons] at hp
        rcases hp with rfl | hp
        · simpa [hf c] using hl (k, c) (List.mem_cons_self _ _)
        · exact ih (fun q hq => hl q (List.mem_cons_of_mem _ hq)) p hp
      · simp only [updateConn, if_neg hk, List.mem_cons] at hp
        rcases hp with rfl | hp
        · exact hl (k, c) (List.mem_cons_self _ _)
        · exact ih (fun q hq => hl q (List.mem_cons_of_mem _ hq)) p hp

theorem mem_removeConn {l : List (Nat × ConnectionStats)} {id : Nat}
    {p : Nat × ConnectionStats} (hp : p ∈ removeConn l id) : p ∈ l := by
  induction l with
  | nil => cases hp
  | cons q rest ih =>
      obtain ⟨k, c⟩ := q
      by_cases hk : k = id
      · simp only [removeConn, if_pos hk] at hp
        exact List.mem_cons_of_mem _ (ih hp)
      · simp only [removeConn, if_neg hk, List.mem_cons] at hp
        rcases hp with rfl | hp
        · exact List.mem_cons_self _ _
        · exact List.mem_cons_of_mem _ (ih hp)

theorem removeConn_sublist (l : List (Nat × ConnectionStats)) (id : Nat) :
    List.Sublist (removeConn l id) l := by
  induction l with
  | nil => exact List.Sublist.refl _
  | cons q rest ih =>
      obtain ⟨k, c⟩ := q
      by_cases hk : k = id
      · simp only [removeConn, if_pos hk]
        exact ih.cons _
      · simp only [removeConn, if_neg hk]
        exact ih.cons₂ _

theorem findConn_removeConn_self (l : List (Nat × ConnectionStats)) (id : Nat) :
    findConn (removeConn l id) id = none := by
  induction l with
  | nil => rfl
  | cons q rest ih =>
      obtain ⟨k, c⟩ := q
      by_cases hk : k = id
      · simp only [removeConn, if_pos hk, ih]
      · simp only [removeConn, if_neg hk, findConn, if_neg hk, ih]

theorem countActive_removeConn {l : List (Nat × ConnectionStats)} {id : Nat}
    {c : ConnectionStats}
    (hact : ∀ p ∈ l, p.2.active = true) (hnd : (l.map Prod.fst).Nodup)
    (hfind : findConn l id = some c) :
    countActive l = countActive (removeConn l id) + 1 := by
  induction l with
  | nil => cases hfind
  | cons q rest ih =>
      obtain ⟨k, c'⟩ := q
      simp only [List.map_cons, List.nodup_cons] at hnd
      by_cases hk : k = id
      · subst hk
        have hrest : findConn rest k = none :=
          findConn_none_of_not_mem hnd.1
        have hc' : c'.active = true := hact (k, c') (List.mem_cons_self _ _)
        simp only [removeConn, if_pos rfl, removeConn_of_findConn_none hrest]
        simp [countActive, List.filter_cons, hc']
      · simp only [findConn, if_neg hk] at hfind
        have := ih (fun p hp => hact p (List.mem_cons_of_mem _ hp)) hnd.2 hfind
        simp only [removeConn, if_neg hk]
        simp only [countActive, List.filter_cons] at *
        by_cases hc' : c'.active <;> simp [hc'] <;> omega

theorem relayStep_stats (st : SOCKS5ProxyState) (id : Nat) (ch : Bool × Nat) :
    (relayStep st id ch).stats = st.stats := by
  unfold relayStep
  cases findConn st.connections id <;> rfl

theorem relayStep_status (st : SOCKS5ProxyState) (id : Nat) (ch : Bool × Nat) :
    (relayStep st id ch).status = st.status := by
  unfold relayStep
  cases findConn st.connections id <;> rfl

theorem relayStep_running (st : SOCKS5ProxyState) (id : Nat) (ch : Bool × Nat) :
    (relayStep st id ch).running = st.running := by
  unfold relayStep
  cases findConn st.connections id <;> rfl

theorem relayStep_counter (st : SOCKS5ProxyState) (id : Nat) (ch : Bool × Nat) :
    (relayStep st id ch).connection_counter = st.connection_counter := by
  unfold relayStep
  cases findConn st.connections id <;> rfl

theorem relayStep_removeConn (st : SOCKS5ProxyState) (id : Nat) (ch : Bool × Nat) :
    removeConn (relayStep st id ch).connections id = removeConn st.connections id := by
  unfold relayStep
  cases findConn st.connections id with
  | none => rfl
  | some c => exact removeConn_updateConn _ _ _

theorem relayStep_findConn_isSome (st : SOCKS5ProxyState) (id : Nat) (ch : Bool × Nat)
    (h : (findConn st.connections id).isSome = true) :
    (findConn (relayStep st id ch).connections id).isSome = true := by
  unfold relayStep
  cases hf : findConn st.connections id with
  | none => simp [hf] at h
  | some c => simp [findConn_updateConn, hf]

theorem relay_data_stats (id : Nat) :
    ∀ (chunks : List (Bool × Nat)) (st : SOCKS5ProxyState),
      (relay_data st id chunks).stats = st.stats := by
  intro chunks
  induction chunks with
  | nil => intro st; rfl
  | cons ch rest ih =>
      intro st
      simp only [relay_data, ih, relayStep_stats]

theorem relay_data_removeConn (id : Nat) :
    ∀ (chunks : List (Bool × Nat)) (st : SOCKS5ProxyState),
      removeConn (relay_data st id chunks).connections id = removeConn st.connections id := by
  intro chunks
  induction chunks with
  | nil => intro st; rfl
  | cons ch rest ih =>
      intro st
      simp only [relay_data, ih, relayStep_removeConn]

theorem relay_data_findConn_isSome (id : Nat) :
    ∀ (chunks : List (Bool × Nat)) (st : SOCKS5ProxyState),
      (findConn st.connections id).isSome = true →
      (findConn (relay_data st id chunks).connections id).isSome = true := by
  intro chunks
  induction chunks with
  | nil => intro st h; exact h
  | cons ch rest ih =>
      intro st h
      exact ih _ (relayStep_findConn_isSome st id ch h)

theorem engineInv_init : EngineInv SOCKS5ProxyState.init := by
  refine ⟨rfl, ?_, ?_, ?_⟩ <;> simp [SOCKS5ProxyState.init, countActive]

theorem countActive_cons_active (k : Nat) (c : ConnectionStats)
    (l : List (Nat × ConnectionStats)) (hc : c.active = true) :
    countActive ((k, c) :: l) = countActive l + 1 := by
  simp [countActive, List.filter_cons, hc]

theorem relayStep_countActive (st : SOCKS5ProxyState) (id : Nat) (ch : Bool × Nat) :
    countActive (relayStep st id ch).connections = countActive st.connections := by
  unfold relayStep
  cases findConn st.connections id with
  | none => rfl
  | some c =>
      exact countActive_updateConn _ _ _
        (by intro c'; by_cases hb : ch.1 <;> simp [hb])

theorem relayStep_active_mem (st : SOCKS5ProxyState) (id : Nat) (ch : Bool × Nat)
    (hl : ∀ p ∈ st.connections, p.2.active = true) :
    ∀ p ∈ (relayStep st id ch).connections, p.2.active = true := by
  unfold relayStep
  cases findConn st.connections id with
  | none => exact hl
  | some c =>
      exact active_mem_updateConn hl
        (by intro c'; by_cases hb : ch.1 <;> simp [hb])

theorem relayStep_keys (st : SOCKS5ProxyState) (id : Nat) (ch : Bool × Nat) :
    (relayStep st id ch).connections.map Prod.fst = st.connections.map Prod.fst := by
  unfold relayStep
  cases findConn st.connections id with
  | none => rfl
  | some c => exact keys_updateConn _ _ _

theorem engineInv_applyOp (st : SOCKS5ProxyState) (op : EngineOp)
    (h : EngineInv st) : EngineInv (applyOp st op) := by
  obtain ⟨hcount, hact, hbound, hnd⟩ := h
  cases op with
  | acceptAssign =>
      refine ⟨hcount, hact, ?_, hnd⟩
      intro p hp
      exact Nat.lt_succ_of_lt (hbound p hp)
  | openConn ca =>
      have hfresh : st.connection_counter ∉ st.connections.map Prod.fst := by
        intro hmem
        obtain ⟨p, hp, hpk⟩ := List.mem_map.mp hmem
        exact absurd (hpk ▸ hbound p hp) (lt_irrefl _)
      refine ⟨?_, ?_, ?_, ?_⟩
      · simp only [applyOp, registerConnection, ProxyStats.add_connection]
        rw [countActive_cons_active _ _ _ rfl, hcount]
        push_cast
        ring
      · intro p hp
        simp only [applyOp, registerConnection, List.mem_cons] at hp
        rcases hp with rfl | hp
        · rfl
        · exact hact p hp
      · intro p hp
        simp only [applyOp, registerConnection, List.mem_cons] at hp
        rcases hp with rfl | hp
        · exact Nat.lt_succ_self _
        · exact Nat.lt_succ_of_lt (hbound p hp)
      · simp only [applyOp, registerConnection, List.map_cons, List.nodup_cons]
        exact ⟨hfresh, hnd⟩
  | relayChunk id b n =>
      refine ⟨?_, ?_, ?_, ?_⟩
      · simp only [applyOp]
        rw [relayStep_stats, relayStep_countActive]
        exact hcount
      · simp only [applyOp]
        exact relayStep_active_mem _ _ _ hact
      · simp only [applyOp]
        intro p hp
        rw [relayStep_counter]
        have hpk : p.1 ∈ (relayStep st id (b, n)).connections.map Prod.fst :=
          List.mem_map.mpr ⟨p, hp, rfl⟩
        rw [relayStep_keys] at hpk
        obtain ⟨q, hq, hqk⟩ := List.mem_map.mp hpk
        exact hqk ▸ hbound q hq
      · simp only [applyOp]
        rw [relayStep_keys]
        exact hnd
  | closeConn id =>
      simp only [applyOp]
      unfold closeConnection
      cases hf : findConn st.connections id with
      | none => exact ⟨hcount, hact, hbound, hnd⟩
      | some c =>
          have hdrop := countActive_removeConn hact hnd hf
          refine ⟨?_, ?_, ?_, ?_⟩
          · simp only [ProxyStats.close_connection]
            rw [hcount, hdrop]
            push_cast
            ring
          · intro p hp
            exact hact p (mem_removeConn hp)
          · intro p hp
            exact hbound p (mem_removeConn hp)
          · exact hnd.sublist ((removeConn_sublist st.connections id).map Prod.fst)
  | failConn =>
      exact ⟨hcount, hact, hbound, hnd⟩

theorem engineInv_foldl (ops : List EngineOp) :
    ∀ st : SOCKS5ProxyState, EngineInv st → EngineInv (ops.foldl applyOp st) := by
  induction ops with
  | nil => intro st h; exact h
  | cons op rest ih =>
      intro st h
      exact ih _ (engineInv_applyOp st op h)

/-! Claim theorems. -/

/-- C1 counterexample: a client that sends only the 2 greeting bytes `[5, 1]`
to a running engine is closed, but `ProxyStats.failed` is NOT incremented by
one — `_handle_handshake` swallows its `SOCKS5Exception` and returns `False`,
and `_handle_connection` then just returns, never reaching
`stats.fail_connection()`.  This refutes the claim's `failed` increment at a
concrete input. -/
theorem C1_counterexample :
    ((handle_connection runningEngine 0 false [] [] [5, 1] [] []
        (fun _ _ _ => DialOutcome.other) "10.0.0.1:5555" []).1).stats.failed_connections
      ≠ runningEngine.stats.failed_connections + 1 := by
  decide

/-- C1 (amended): for every accepted client whose SOCKS5 handshake fails
(fewer than 3 greeting bytes, wrong version, no acceptable method, or failed
username/password sub-negotiation — i.e. `_handle_handshake` returns
`False`), the engine closes the client and leaves the whole engine state
unchanged: `ProxyStats.failed` is NOT incremented (and the status stays
`Running`, with no listener state change). -/
theorem C1_handshake_failure_state_unchanged
    (st : SOCKS5ProxyState) (conn_id : Nat) (auth_required : Bool)
    (username password greeting authData reqData : List Nat)
    (dial : Nat → List Nat → Nat → DialOutcome) (client_addr : String)
    (chunks : List (Bool × Nat))
    (hfail : handle_handshake auth_required username password greeting authData = false)
    (hfresh : findConn st.connections conn_id = none) :
    handle_connection st conn_id auth_required username password greeting authData reqData
        dial client_addr chunks = (st, true) := by
  simp [handle_connection, hfail, closeConnection, hfresh]

/-- Witness for `C1_handshake_failure_state_unchanged` at a concrete input:
a 2-byte greeting against a running engine. -/
theorem C1_witness :
    handle_handshake false [] [] [5, 1] [] = false
    ∧ findConn runningEngine.connections 0 = none
    ∧ handle_connection runningEngine 0 false [] [] [5, 1] [] []
        (fun _ _ _ => DialOutcome.other) "10.0.0.1:5555" [] = (runningEngine, true) :=
  ⟨by decide, by decide,
   C1_handshake_failure_state_unchanged runningEngine 0 false [] [] [5, 1] [] []
     (fun _ _ _ => DialOutcome.other) "10.0.0.1:5555" [] (by decide) (by decide)⟩

/-- C2 counterexample: with SSH unhealthy and SOCKS5 healthy — a case in
which the claim says the failure count stays put (it would only be
incremented in the both-unhealthy case) — the monitor tick still increments
`failure_count` from 0 to 1 (socks.py line 1317 runs in every non-healthy
branch). -/
theorem C2_counterexample :
    (monitor_tick_update runningTunnel false true).failure_count
        = runningTunnel.failure_count + 1
    ∧ (monitor_tick_update runningTunnel false true).status = TunnelStatus.UNHEALTHY := by
  decide

/-- C2 (amended): on each monitor tick the probe results combine as: both
healthy → supervisor `Running`, engine `Running`, `failure_count :=
max(0, failure_count − 1)`; both unhealthy → supervisor `Failed`, engine
`Failed`; only SSH unhealthy → supervisor `Unhealthy`, engine `Running`;
only SOCKS5 unhealthy → supervisor stays `Running`, engine `Unhealthy`; and
`failure_count` is incremented by 1 in EVERY case where not both probes are
healthy (not only in the both-unhealthy case). -/
theorem C2_monitor_combination (t : TunnelInfo) (ssh_healthy socks5_healthy : Bool) :
    (ssh_healthy = true → socks5_healthy = true →
        monitor_tick_update t ssh_healthy socks5_healthy =
          { t with status := TunnelStatus.RUNNING, socks5_status := SOCKS5Status.RUNNING,
                   failure_count := max 0 (t.failure_count - 1) })
    ∧ (ssh_healthy = false → socks5_healthy = false →
        monitor_tick_update t ssh_healthy socks5_healthy =
          { t with status := TunnelStatus.FAILED, socks5_status := SOCKS5Status.FAILED,
                   failure_count := t.failure_count + 1 })
    ∧ (ssh_healthy = false → socks5_healthy = true →
        monitor_tick_update t ssh_healthy socks5_healthy =
          { t with status := TunnelStatus.UNHEALTHY, socks5_status := SOCKS5Status.RUNNING,
                   failure_count := t.failure_count + 1 })
    ∧ (ssh_healthy = true → socks5_healthy = false →
        monitor_tick_update t ssh_healthy socks5_healthy =
          { t with status := TunnelStatus.RUNNING, socks5_status := SOCKS5Status.UNHEALTHY,
                   failure_count := t.failure_count + 1 }) := by
  refine ⟨?_, ?_, ?_, ?_⟩ <;> intro h1 h2 <;> subst h1 <;> subst h2 <;>
    simp [monitor_tick_update]

/-- Witness for `C2_monitor_combination`: the both-unhealthy case at a
concrete supervisor record. -/
theorem C2_witness :
    monitor_tick_update runningTunnel false false =
      { runningTunnel with status := TunnelStatus.FAILED,
                           socks5_status := SOCKS5Status.FAILED,
                           failure_count := runningTunnel.failure_count + 1 } :=
  (C2_monitor_combination runningTunnel false false).2.1 rfl rfl

/-- C3 counterexample: when `SOCKS5Proxy.start()` succeeds but the health
probe after the 1 s sleep reports not healthy, `create_socks5_proxy` returns
failure — but the engine it just started is still running (the code logs a
warning and returns `False` without calling `stop()`, socks.py lines
965-967). -/
theorem C3_counterexample :
    (create_socks5_proxy stoppedTunnel true false).ok = false
    ∧ (create_socks5_proxy stoppedTunnel true false).proxyRunning = true := by
  decide

/-- C3 (amended): in Supervisor Create, after starting the engine the
supervisor sleeps 1 s and runs the SOCKS5 health probe; whenever that probe
reports not healthy, Create returns failure (and `create_tunnel` marks the
tunnel `Failed`), but the engine is NOT stopped — the just-started engine is
left running. -/
theorem C3_probe_failure_leaves_engine_running (t : TunnelInfo)
    (sshExitedWithin3s : Bool) (stderrMsg : String) (rounds : List (Bool × Bool)) :
    (create_socks5_proxy t true false).ok = false
    ∧ (create_socks5_proxy t true false).proxyRunning = true
    ∧ (create_tunnel t true false sshExitedWithin3s stderrMsg rounds).ok = false
    ∧ (create_tunnel t true false sshExitedWithin3s stderrMsg rounds).proxyRunning = true
    ∧ (create_tunnel t true false sshExitedWithin3s stderrMsg rounds).tunnel.status
        = TunnelStatus.FAILED := by
  refine ⟨?_, ?_, ?_, ?_, ?_⟩ <;> simp [create_tunnel, create_socks5_proxy]

/-- C4 counterexample: the 7-byte CONNECT request `[5, 1, 0, 3, 0, 0, 80]`
(`ATYP=DOMAIN`, `ULEN=0`, port 80) is NOT rejected as a protocol error: it
parses to the empty domain, the outbound dial is attempted, and when the
dial succeeds the client even receives the success reply. -/
theorem C4_counterexample :
    parse_request [5, 1, 0, 3, 0, 0, 80] = Except.ok (3, [], 80)
    ∧ (handle_request [5, 1, 0, 3, 0, 0, 80] (fun _ _ _ => DialOutcome.ok)).dialAttempted
        = true
    ∧ (handle_request [5, 1, 0, 3, 0, 0, 80] (fun _ _ _ => DialOutcome.ok)).sent
        = successReply :=
  ⟨rfl, rfl, rfl⟩

/-- C4 (amended): a SOCKS5 request with `ATYP=DOMAIN` whose domain-length
byte is 0 (and whose 7 bytes are otherwise well-formed) is NOT rejected as a
protocol error: the parser accepts it with an empty domain (the only length
guard, `len(data) < 5 + domain_len + 2`, is satisfied) and an outbound
target connection is attempted; the reply is then determined by the dial
outcome. -/
theorem C4_empty_domain_accepted (hi lo : Nat)
    (dial : Nat → List Nat → Nat → DialOutcome) :
    parse_request [5, 1, 0, 3, 0, hi, lo] = Except.ok (3, [], 256 * hi + lo)
    ∧ (handle_request [5, 1, 0, 3, 0, hi, lo] dial).dialAttempted = true := by
  have hp : parse_request [5, 1, 0, 3, 0, hi, lo] = Except.ok (3, [], 256 * hi + lo) := by
    simp [parse_request, List.getD_cons_zero, List.getD_cons_succ]
  refine ⟨hp, ?_⟩
  cases hd : dial 3 [] (256 * hi + lo) <;> simp [handle_request, hp, hd]

/-- C5 counterexample: the option vector the supervisor passes to SSH
contains the `-o` option `IPQoS=throughput`, which is not in the claim's
exact option set — so the child is not invoked with "no more" than the nine
claimed options. -/
theorem C5_counterexample :
    "IPQoS=throughput" ∈ sshOptionValues (ssh_opts 1080 8880 22 "root" "203.0.113.7")
    ∧ "IPQoS=throughput" ∉ specClaimedOptionValues := by
  decide

/-- C5 (amended): every SSH child spawned by Supervisor Create is invoked
with exactly the nine claimed options (`ConnectTimeout=30`,
`ServerAliveInterval=5`, `ServerAliveCountMax=3`, `TCPKeepAlive=yes`,
`ExitOnForwardFailure=yes`, `StrictHostKeyChecking=no`, `Compression=yes`,
plus `-N` and the `-R` reverse-forward) PLUS the extra option
`-o IPQoS=throughput`, followed by `-p <ssh_port>` and the destination
`user@host`; the full command wraps these in `autossh -M 0` (prefixed by
`sshpass -p <password>` when password authentication is used). -/
theorem C5_ssh_option_set (use_key_auth : Bool) (password : String)
    (port socks5_port ssh_port : Int) (user ip : String) :
    ssh_opts port socks5_port ssh_port user ip
      = (specClaimedOptionValues.map (fun v => ["-o", v])).flatten
        ++ ["-o", "IPQoS=throughput", "-N",
            "-R", "127.0.0.1:" ++ toString port ++ ":127.0.0.1:" ++ toString socks5_port,
            "-p", toString ssh_port, user ++ "@" ++ ip]
    ∧ create_tunnel_cmd use_key_auth password port socks5_port ssh_port user ip
      = (if use_key_auth then ["autossh", "-M", "0"]
         else ["sshpass", "-p", password, "autossh", "-M", "0"]) ++
        ssh_opts port socks5_port ssh_port user ip := by
  constructor
  · rfl
  · cases use_key_auth <;> rfl

/-- C6: for every CONNECT request whose target dial fails, the reply code is
determined exactly by the dial outcome — name-resolution failure
(`socket.gaierror`) and connect timeout map to `HOST_UNREACHABLE` (0x04),
connection refused maps to `CONNECTION_REFUSED` (0x05), any other failure
maps to `GENERAL_FAILURE` (0x01) — the reply carries an all-zero IPv4 bound
address and zero port, no target socket is handed back, and the client is
then closed by the `finally` block of `_handle_connection`. -/
theorem C6_dial_failure_reply_mapping
    (data : List Nat) (atyp : Nat) (addr : List Nat) (port : Nat)
    (dial : Nat → List Nat → Nat → DialOutcome)
    (hparse : parse_request data = Except.ok (atyp, addr, port)) :
    (dial atyp addr port = DialOutcome.gaierror →
        handle_request data dial
          = { sent := errReply 4, target := false, dialAttempted := true })
    ∧ (dial atyp addr port = DialOutcome.timeout →
        handle_request data dial
          = { sent := errReply 4, target := false, dialAttempted := true })
    ∧ (dial atyp addr port = DialOutcome.refused →
        handle_request data dial
          = { sent := errReply 5, target := false, dialAttempted := true })
    ∧ (dial atyp addr port = DialOutcome.other →
        handle_request data dial
          = { sent := errReply 1, target := false, dialAttempted := true })
    ∧ errReply 4 = [5, 4, 0, 1, 0, 0, 0, 0, 0, 0]
    ∧ errReply 5 = [5, 5, 0, 1, 0, 0, 0, 0, 0, 0]
    ∧ errReply 1 = [5, 1, 0, 1, 0, 0, 0, 0, 0, 0]
    ∧ (∀ (st : SOCKS5ProxyState) (conn_id : Nat) (auth_required : Bool)
         (username password greeting authData : List Nat) (client_addr : String)
         (chunks : List (Bool × Nat)),
        (handle_connection st conn_id auth_required username password greeting authData
            data dial client_addr chunks).2 = true) := by
  refine ⟨?_, ?_, ?_, ?_, rfl, rfl, rfl, ?_⟩
  · intro hd; simp [handle_request, hparse, hd]
  · intro hd; simp [handle_request, hparse, hd]
  · intro hd; simp [handle_request, hparse, hd]
  · intro hd; simp [handle_request, hparse, hd]
  · intro st conn_id auth_required username password greeting authData client_addr chunks
    rfl

/-- Witness for `C6_dial_failure_reply_mapping`: a CONNECT to 1.2.3.4:80
whose dial is refused yields exactly the 0x05 reply. -/
theorem C6_witness :
    handle_request [5, 1, 0, 1, 1, 2, 3, 4, 0, 80] (fun _ _ _ => DialOutcome.refused)
      = { sent := errReply 5, target := false, dialAttempted := true } :=
  (C6_dial_failure_reply_mapping [5, 1, 0, 1, 1, 2, 3, 4, 0, 80] 1 [1, 2, 3, 4] 80
    (fun _ _ _ => DialOutcome.refused) rfl).2.2.1 rfl

/-- C7: over every sequence of engine events starting from the initial
engine state, `ProxyStats.active_connections` equals the number of
`ConnectionStats` records in the connections map whose `active` flag is true
(at every quiescent point, i.e. between events); moreover
`_close_connection` decrements the counter exactly once per record — closing
an already-closed id a second time is a no-op, and closing an id that was
never registered changes nothing. -/
theorem C7_active_count_invariant :
    (∀ ops : List EngineOp,
        (ops.foldl applyOp SOCKS5ProxyState.init).stats.active_connections
          = (countActive (ops.foldl applyOp SOCKS5ProxyState.init).connections : Int))
    ∧ (∀ (st : SOCKS5ProxyState) (id : Nat),
        closeConnection (closeConnection st id) id = closeConnection st id)
    ∧ (∀ (st : SOCKS5ProxyState) (id : Nat),
        findConn st.connections id = none → closeConnection st id = st) := by
  refine ⟨?_, ?_, ?_⟩
  · intro ops
    exact (engineInv_foldl ops SOCKS5ProxyState.init engineInv_init).1
  · intro st id
    cases hf : findConn st.connections id with
    | none =>
        have h1 : closeConnection st id = st := by simp [closeConnection, hf]
        rw [h1]
        exact h1
    | some c =>
        have h1 : closeConnection st id =
            { st with stats := st.stats.close_connection c,
                      connections := removeConn st.connections id } := by
          simp [closeConnection, hf]
        rw [h1]
        simp [closeConnection, findConn_removeConn_self]
  · intro st id h
    simp [closeConnection, h]

/-- Witness for `C7_active_count_invariant`: a concrete open/relay/close
trace, and a close of a never-registered id on the initial state. -/
theorem C7_witness :
    (([EngineOp.openConn "127.0.0.1:40000", EngineOp.relayChunk 0 true 4,
       EngineOp.closeConn 0].foldl applyOp SOCKS5ProxyState.init).stats.active_connections
      = (countActive (([EngineOp.openConn "127.0.0.1:40000", EngineOp.relayChunk 0 true 4,
          EngineOp.closeConn 0].foldl applyOp SOCKS5ProxyState.init).connections) : Int))
    ∧ closeConnection SOCKS5ProxyState.init 5 = SOCKS5ProxyState.init :=
  ⟨C7_active_count_invariant.1
     [EngineOp.openConn "127.0.0.1:40000", EngineOp.relayChunk 0 true 4,
      EngineOp.closeConn 0],
   C7_active_count_invariant.2.2 SOCKS5ProxyState.init 5 (by decide)⟩

/-- C8: the Fleet Monitor's sleep interval after a tick equals
`health_check_interval` when that tick observed every supervisor healthy
(the backoff resets immediately), and otherwise equals
`min(health_check_interval * 2^min(consecutive_failed_ticks, 5), 300)`
where `consecutive_failed_ticks` counts the consecutive not-all-healthy
ticks including this one; the default interval is 30 s. -/
theorem C8_backoff_formula (health_check_interval c : Nat) (allHealthy : Bool) :
    monitor_sleep_time health_check_interval (next_consecutive_failures c allHealthy)
      = (if allHealthy then health_check_interval
         else min (health_check_interval * 2 ^ (min (c + 1) 5)) 300)
    ∧ next_consecutive_failures c true = 0
    ∧ default_health_check_interval = 30 := by
  refine ⟨?_, rfl, rfl⟩
  cases allHealthy with
  | false => simp [next_consecutive_failures, monitor_sleep_time]
  | true => simp [next_consecutive_failures, monitor_sleep_time]

/-- C9: the health probe's three stages are cumulative — in every result, a
later stage flag can be true only if the earlier stage passed, so
`full_connection = true` implies `socks5_handshake = true` and
`basic_connectivity = true`; and `overall_healthy` is true exactly when all
three stage flags are true. -/
theorem C9_probe_stages_cumulative (basicOk handshakeOk fullOk : Bool) :
    ((run_health_check basicOk handshakeOk fullOk).full_connection = true →
        (run_health_check basicOk handshakeOk fullOk).socks5_handshake = true
        ∧ (run_health_check basicOk handshakeOk fullOk).basic_connectivity = true)
    ∧ ((run_health_check basicOk handshakeOk fullOk).overall_healthy = true ↔
        (run_health_check basicOk handshakeOk fullOk).basic_connectivity = true
        ∧ (run_health_check basicOk handshakeOk fullOk).socks5_handshake = true
        ∧ (run_health_check basicOk handshakeOk fullOk).full_connection = true) := by
  cases basicOk <;> cases handshakeOk <;> cases fullOk <;> decide

/-- Witness for `C9_probe_stages_cumulative`: all three stages pass. -/
theorem C9_witness :
    (run_health_check true true true).socks5_handshake = true
    ∧ (run_health_check true true true).basic_connectivity = true :=
  (C9_probe_stages_cumulative true true true).1 rfl

/-- C10: for every accepted client that fails before a target connection is
established (bad greeting, rejected method, failed authentication, malformed
request, or dial failure), the engine state — in particular
`ProxyStats.total_connections`, `active_connections` and the connections
map — is left unchanged; a `ConnectionStats` record is created and
`total`/`active` incremented only in the success path, after `_handle_request`
has dialled the target successfully and sent the success reply (so at the
end of the whole handler `total` is up by one, the record has been closed
again, and `active` and `failed` are back to their starting values). -/
theorem C10_stats_frame
    (st : SOCKS5ProxyState) (conn_id : Nat) (auth_required : Bool)
    (username password greeting authData reqData : List Nat)
    (dial : Nat → List Nat → Nat → DialOutcome) (client_addr : String)
    (chunks : List (Bool × Nat))
    (hfresh : findConn st.connections conn_id = none) :
    ((handle_handshake auth_required username password greeting authData = false
        ∨ (handle_request reqData dial).target = false) →
      (handle_connection st conn_id auth_required username password greeting authData
          reqData dial client_addr chunks).1 = st)
    ∧ ((handle_request reqData dial).target = true →
        (handle_request reqData dial).sent = successReply
        ∧ (handle_request reqData dial).dialAttempted = true)
    ∧ (handle_handshake auth_required username password greeting authData = true →
       (handle_request reqData dial).target = true →
        (handle_connection st conn_id auth_required username password greeting authData
            reqData dial client_addr chunks).1.stats.total_connections
          = st.stats.total_connections + 1
        ∧ (handle_connection st conn_id auth_required username password greeting authData
            reqData dial client_addr chunks).1.stats.active_connections
          = st.stats.active_connections
        ∧ (handle_connection st conn_id auth_required username password greeting authData
            reqData dial client_addr chunks).1.stats.failed_connections
          = st.stats.failed_connections
        ∧ (handle_connection st conn_id auth_required username password greeting authData
            reqData dial client_addr chunks).1.connections
          = st.connections) := by
  refine ⟨?_, ?_, ?_⟩
  · intro h
    rcases h with hfail | htgt
    · simp [handle_connection, hfail, closeConnection, hfresh]
    · cases hhs : handle_handshake auth_required username password greeting authData with
      | false => simp [handle_connection, hhs, closeConnection, hfresh]
      | true => simp [handle_connection, hhs, htgt, closeConnection, hfresh]
  · intro ht
    cases hp : parse_request reqData with
    | error code => simp [handle_request, hp] at ht
    | ok val =>
        obtain ⟨atyp, addr, port⟩ := val
        cases hd : dial atyp addr port <;> simp [handle_request, hp, hd] at ht ⊢
  · intro hhs ht
    have hconn : handle_connection st conn_id auth_required username password greeting
        authData reqData dial client_addr chunks
        = (closeConnection
            (relay_data (registerConnection st conn_id client_addr) conn_id chunks) conn_id,
           true) := by
      simp [handle_connection, hhs, ht]
    have hregfind : findConn (registerConnection st conn_id client_addr).connections conn_id
        = some { client_addr := client_addr, target_addr := "", target_port := 0,
                 bytes_sent := 0, bytes_received := 0, active := true } := by
      simp [registerConnection, findConn]
    have hsome := relay_data_findConn_isSome conn_id chunks
      (registerConnection st conn_id client_addr) (by simp [hregfind])
    obtain ⟨c2, hc2⟩ := Option.isSome_iff_exists.mp hsome
    have hstats : (relay_data (registerConnection st conn_id client_addr) conn_id
        chunks).stats = (registerConnection st conn_id client_addr).stats :=
      relay_data_stats conn_id chunks (registerConnection st conn_id client_addr)
    have hrm : removeConn (relay_data (registerConnection st conn_id client_addr) conn_id
          chunks).connections conn_id
        = removeConn (registerConnection st conn_id client_addr).connections conn_id :=
      relay_data_removeConn conn_id chunks (registerConnection st conn_id client_addr)
    have hrm2 : removeConn (registerConnection st conn_id client_addr).connections conn_id
        = st.connections := by
      simp [registerConnection, removeConn, removeConn_of_findConn_none hfresh]
    have hclose : closeConnection
        (relay_data (registerConnection st conn_id client_addr) conn_id chunks) conn_id
        = { relay_data (registerConnection st conn_id client_addr) conn_id chunks with
              stats := (relay_data (registerConnection st conn_id client_addr) conn_id
                chunks).stats.close_connection c2,
              connections := removeConn (relay_data (registerConnection st conn_id
                client_addr) conn_id chunks).connections conn_id } := by
      simp [closeConnection, hc2]
    rw [hconn]
    refine ⟨?_, ?_, ?_, ?_⟩ <;>
      simp only [hclose, hstats, hrm, hrm2] <;>
        simp [registerConnection, ProxyStats.add_connection, ProxyStats.close_connection]

/-- Witness for `C10_stats_frame`: a complete successful NO-AUTH CONNECT
session against a running engine with a 4-byte exchange each way. -/
theorem C10_witness :
    (handle_connection runningEngine 0 false [] [] [5, 1, 0] []
        [5, 1, 0, 1, 1, 2, 3, 4, 0, 80] (fun _ _ _ => DialOutcome.ok) "10.0.0.1:5555"
        [(true, 4), (false, 4)]).1.stats.total_connections
      = runningEngine.stats.total_connections + 1
    ∧ (handle_connection runningEngine 0 false [] [] [5, 1, 0] []
        [5, 1, 0, 1, 1, 2, 3, 4, 0, 80] (fun _ _ _ => DialOutcome.ok) "10.0.0.1:5555"
        [(true, 4), (false, 4)]).1.stats.active_connections
      = runningEngine.stats.active_connections
    ∧ (handle_connection runningEngine 0 false [] [] [5, 1, 0] []
        [5, 1, 0, 1, 1, 2, 3, 4, 0, 80] (fun _ _ _ => DialOutcome.ok) "10.0.0.1:5555"
        [(true, 4), (false, 4)]).1.stats.failed_connections
      = runningEngine.stats.failed_connections
    ∧ (handle_connection runningEngine 0 false [] [] [5, 1, 0] []
        [5, 1, 0, 1, 1, 2, 3, 4, 0, 80] (fun _ _ _ => DialOutcome.ok) "10.0.0.1:5555"
        [(true, 4), (false, 4)]).1.connections
      = runningEngine.connections :=
  (C10_stats_frame runningEngine 0 false [] [] [5, 1, 0] []
    [5, 1, 0, 1, 1, 2, 3, 4, 0, 80] (fun _ _ _ => DialOutcome.ok) "10.0.0.1:5555"
    [(true, 4), (false, 4)] (by decide)).2.2 (by decide) (by decide)
